import Mathlib

/-!
Verification of the WAVE UI automation sweep core.

This file gives a shallow embedding of the pure, decision-making parts of
`waveui.py`, `utils.py` and `main.py`: the report-filename ledger, the
parameter-space enumeration of `run_parameter_sweep`, the feasibility filter
`get_valid_target_pressures`, the per-combination driving sequence
`_process_parameter_combination`, and the result-extraction lookup
`get_pressure_from_excel`.  Interactions with the external GUI process are
modelled by boolean oracles recording whether each driving step succeeds;
spreadsheet artifacts are modelled as explicit data.  Python float values are
idealised as exact rationals, `int()` as truncation toward zero, and
`round(x, 1)` as exact round-half-to-even at one decimal digit.

The first half of the file holds the definitions, the second half the
theorems about them.
-/

/-- Python `int()` applied to a number: truncation toward zero. -/
def pyInt (x : ℚ) : ℤ :=
  if 0 ≤ x then ⌊x⌋ else ⌈x⌉

/-- Round to the nearest integer, ties to even (Python `round` semantics,
idealised over exact rationals). -/
def roundHalfEven (x : ℚ) : ℤ :=
  let f := ⌊x⌋
  let r := x - f
  if r < 1 / 2 then f
  else if 1 / 2 < r then f + 1
  else if f % 2 = 0 then f else f + 1

/-- Python `round(x, 1)`: round to one decimal digit. -/
def pyRound1 (x : ℚ) : ℚ :=
  (roundHalfEven (10 * x) : ℚ) / 10

/-- `WaveUI.get_valid_target_pressures`: walk the candidate targets in order
and keep those whose boost `target - feed_pressure` is strictly positive. -/
def get_valid_target_pressures (target_values : List ℚ) (feed_pressure : ℚ) : List ℚ :=
  target_values.foldl
    (fun valid_pressures target =>
      if 0 < target - feed_pressure then valid_pressures ++ [target] else valid_pressures)
    []

/-- Modelled from the spec's testable property for the feasibility filter:
the subset of candidate targets with `round(t - F, 1) > 0`.  Written to be
compared against `get_valid_target_pressures`, which is the code's filter. -/
def specValidTargets (target_values : List ℚ) (feed_pressure : ℚ) : List ℚ :=
  target_values.filter (fun t => 0 < pyRound1 (t - feed_pressure))

/-- Python `range(a, b + 1)`, the inclusive integer range used for
`pv_range` and `els_range` in `run_parameter_sweep`. -/
def rangeList (a b : ℤ) : List ℤ :=
  (List.range (b + 1 - a).toNat).map (fun (i : ℕ) => a + (i : ℤ))

/-- Pressure values generated in `run_parameter_sweep`:
`[round(start + i * step, 1) for i in range(int((end - start) / step) + 1)]`.
Defined only for a nonzero step; the zero-step `ZeroDivisionError` is handled
by the caller `run_parameter_sweep_stage1` below. -/
def pressureValues (pstart pend step : ℚ) : List ℚ :=
  (List.range (pyInt ((pend - pstart) / step) + 1).toNat).map
    (fun (i : ℕ) => pyRound1 (pstart + (i : ℚ) * step))

/-- The stage-1 combination space `itertools.product(pv_range, els_range,
pressure_values)` in iteration order. -/
def stage1Combos (pvMin pvMax elsMin elsMax : ℤ) (p0 p1 s : ℚ) : List (ℤ × ℤ × ℚ) :=
  (rangeList pvMin pvMax).bind (fun pv =>
    (rangeList elsMin elsMax).bind (fun els =>
      (pressureValues p0 p1 s).map (fun p => (pv, els, p))))

/-- Stage-1 sweep configuration, as read from a validated `StageConfig` dict:
`config['pv_range']`, `config['els_range']`, `config['feed_pressure_range']`
and the optional `config.get('feed_pressure_step', 1)`. -/
structure Stage1Config where
  pvMin : ℤ
  pvMax : ℤ
  elsMin : ℤ
  elsMax : ℤ
  pMin : ℚ
  pMax : ℚ
  feedPressureStep : Option ℚ
  elementType : String
deriving Repr, DecidableEq

/-- Effective step: `config.get('feed_pressure_step', 1)`. -/
def Stage1Config.step (c : Stage1Config) : ℚ :=
  c.feedPressureStep.getD 1

/-- Running state of the sweep loop: accumulated successes, successes since
the last (re)launch, and whether a failed relaunch aborted the loop. -/
structure SweepLoopState where
  successes : ℕ
  restartCounter : ℕ
  aborted : Bool
deriving Repr, DecidableEq

/-- `restart_threshold` in `run_parameter_sweep`. -/
def restartThreshold : ℕ := 50

/-- The per-combination body of the sweep loop in `run_parameter_sweep`:
restart the application when the counter reaches the threshold (abort the
remaining sweep when the relaunch fails), then drive one combination and
count it on success.  `relaunchOk r` tells whether the r-th relaunch
succeeds and `comboOk` whether `_process_parameter_combination` returns
success for a combination. -/
def sweepLoop {α : Type} (relaunchOk : ℕ → Bool) (comboOk : α → Bool) :
    List α → SweepLoopState → ℕ → SweepLoopState
  | [], st, _ => st
  | c :: cs, st, r =>
    if st.aborted then st
    else if restartThreshold ≤ st.restartCounter then
      if relaunchOk r then
        let base : SweepLoopState := ⟨st.successes, 0, false⟩
        let next : SweepLoopState :=
          if comboOk c then ⟨base.successes + 1, base.restartCounter + 1, false⟩ else base
        sweepLoop relaunchOk comboOk cs next (r + 1)
      else ⟨st.successes, st.restartCounter, true⟩
    else
      let next : SweepLoopState :=
        if comboOk c then ⟨st.successes + 1, st.restartCounter + 1, false⟩ else st
      sweepLoop relaunchOk comboOk cs next r

/-- Outcome of the stage-1 branch of `run_parameter_sweep`, with the external
interactions abstracted: whether a `ZeroDivisionError` escaped before the
application was launched, whether `launch_wave` was invoked, and the returned
`(successful_runs, total_combinations)` pair. -/
structure SweepOutcome where
  zeroDivisionRaised : Bool
  launchAttempted : Bool
  successfulRuns : ℕ
  totalCombinations : ℕ
deriving Repr, DecidableEq

/-- The stage-1 branch of `WaveUI.run_parameter_sweep`.  The pressure list and
`total_combinations` are computed before `launch_wave` is called; a zero step
makes `int((pressure_end - pressure_start) / pressure_step)` raise
`ZeroDivisionError` at that point; a failed initial launch returns `(0, 0)`.
`launchOk` abstracts `launch_wave`, `relaunchOk` the relaunches after
`restart_threshold` successes, and `comboOk` the result of
`_process_parameter_combination` on each `(pv, els, pressure)` triple. -/
def run_parameter_sweep_stage1 (cfg : Stage1Config) (launchOk : Bool)
    (relaunchOk : ℕ → Bool) (comboOk : ℤ × ℤ × ℚ → Bool) : SweepOutcome :=
  if cfg.step = 0 then
    { zeroDivisionRaised := true, launchAttempted := false
      successfulRuns := 0, totalCombinations := 0 }
  else
    let pvals := pressureValues cfg.pMin cfg.pMax cfg.step
    let total := (rangeList cfg.pvMin cfg.pvMax).length
      * ((rangeList cfg.elsMin cfg.elsMax).length * pvals.length)
    if launchOk then
      let combos := stage1Combos cfg.pvMin cfg.pvMax cfg.elsMin cfg.elsMax cfg.pMin cfg.pMax cfg.step
      let final := sweepLoop relaunchOk comboOk combos ⟨0, 0, false⟩ 0
      { zeroDivisionRaised := false, launchAttempted := true
        successfulRuns := final.successes, totalCombinations := total }
    else
      { zeroDivisionRaised := false, launchAttempted := true
        successfulRuns := 0, totalCombinations := 0 }

/-- Exit behaviour of `main`/`run_wave_automation` in `main.py`: an error
escaping `run_parameter_sweep` is logged and the process exits with status 1. -/
def automationExitCode (o : SweepOutcome) : ℕ :=
  if o.zeroDivisionRaised then 1 else 0

/-- Concrete configuration with `feed_pressure_step` 0. -/
def cfgStepZero : Stage1Config := ⟨1, 1, 1, 1, 10, 20, some 0, "NF90-4040"⟩

/-- Concrete configuration with `feed_pressure_step` -1. -/
def cfgStepNeg : Stage1Config := ⟨1, 1, 1, 1, 10, 20, some (-1), "NF90-4040"⟩

/-- One persisted row of `report_metadata.csv`.  Only what the resume logic
in `WaveUI.__init__` reads is modelled: the `filename` cell and the value in
a `report_id` column when the file has one (the program itself never writes
such a column; the timestamp and parameter payloads play no role in the
filename claims). -/
structure CSVRow where
  filename : String
  reportId : Option ℤ
deriving Repr, DecidableEq

/-- The persisted ledger file: its header columns and its rows. -/
structure LedgerFile where
  columns : List String
  rows : List CSVRow
deriving Repr, DecidableEq

/-- Columns of a freshly created metadata DataFrame in `WaveUI.__init__`,
and hence of every file the program itself persists. -/
def metadataColumns : List String :=
  ["filename", "timestamp", "current_stage_params", "previous_stages_params"]

/-- Counter initialisation in `WaveUI.__init__`: `report_counter` starts at
1; when a metadata file exists, is readable, is non-empty and has a
`report_id` column, the counter resumes at `max(report_id) + 1`.  A present
`report_id` column with no values makes `int(max_id)` raise inside the
`try`, falling back to the starting counter 1. -/
def initReportCounter (file : Option LedgerFile) : ℤ :=
  match file with
  | none => 1
  | some f =>
    if f.rows ≠ [] ∧ "report_id" ∈ f.columns then
      match f.rows.filterMap (fun r => r.reportId) with
      | [] => 1
      | x :: xs => xs.foldl max x + 1
    else 1

/-- In-memory ledger state of a `WaveUI` instance: `report_counter` and
`metadata_df` (rows plus column list). -/
structure WaveState where
  reportCounter : ℤ
  columns : List String
  metadata : List CSVRow
deriving Repr, DecidableEq

/-- `WaveUI.__init__`: load the existing metadata file, or create a fresh
empty DataFrame with the four standard columns. -/
def initWaveState (file : Option LedgerFile) : WaveState :=
  { reportCounter := initReportCounter file
    columns := match file with | none => metadataColumns | some f => f.columns
    metadata := match file with | none => [] | some f => f.rows }

/-- Zero-pad a digit string on the left to the given width. -/
def padLeftZero (w : ℕ) (s : String) : String :=
  String.mk (List.replicate (w - s.length) '0') ++ s

/-- Python `f"{n:04d}"`: minimum width 4, zero padded, sign counted in the
width. -/
def formatWidth4 (n : ℤ) : String :=
  if n < 0 then "-" ++ padLeftZero 3 (toString n.natAbs)
  else padLeftZero 4 (toString n.toNat)

/-- `WaveUI.generate_report_filename`: `f"wave_report_{counter:04d}.xls"`. -/
def generate_report_filename (counter : ℤ) : String :=
  "wave_report_" ++ formatWidth4 counter ++ ".xls"

/-- `WaveUI.add_metadata_entry`: generate the filename from the current
counter, append the row, save the ledger, increment the counter and return
the filename. -/
def add_metadata_entry (st : WaveState) : String × WaveState :=
  let filename := generate_report_filename st.reportCounter
  (filename,
    { reportCounter := st.reportCounter + 1
      columns := st.columns
      metadata := st.metadata ++ [{ filename := filename, reportId := none }] })

/-- `WaveUI.save_metadata`: persist the current DataFrame as the ledger
file. -/
def save_metadata (st : WaveState) : LedgerFile :=
  { columns := st.columns, rows := st.metadata }

/-- Append a number of entries in sequence, collecting the generated
filenames in order. -/
def appendEntries : ℕ → WaveState → List String × WaveState
  | 0, st => ([], st)
  | n + 1, st =>
    let fn := (add_metadata_entry st).1
    let st' := (add_metadata_entry st).2
    let rest := appendEntries n st'
    (fn :: rest.1, rest.2)

/-- One process invocation against an export directory: start from the
persisted ledger file (or from nothing), append `n` entries, and return the
generated filenames together with the persisted file. -/
def runInvocation (file : Option LedgerFile) (n : ℕ) : List String × LedgerFile :=
  let run := appendEntries n (initWaveState file)
  (run.1, save_metadata run.2)

/-- One observable action taken while driving a parameter combination
through the external application. -/
inductive UIEvent where
  | tabSelect (tab : String) (ok : Bool)
  | stagesRadio (ok : Bool)
  | fieldSet (stage : ℕ) (field : String) (ok : Bool)
  | reportOpen (ok : Bool)
  | ledgerAppend (filename : String)
  | exportFile (filename : String) (ok : Bool)
deriving Repr, DecidableEq

/-- Success of the four field operations attempted by
`WaveUI._set_stage_reverse_osmosis_parameters` on one stage.  Each operation
sits in its own `try`/`except` in the source: a failure is logged and never
propagates. -/
structure StageFieldOracle where
  pvOk : Bool
  elsOk : Bool
  elementTypeOk : Bool
  pressureOk : Bool
deriving Repr, DecidableEq

/-- `WaveUI._set_stage_reverse_osmosis_parameters`: attempt the four field
writes of one stage (the pressure field is the feed pressure on stage 1 and
the boost pressure on later stages).  The function has no return value, and
every failure is caught and logged inside it. -/
def set_stage_ro_parameters (curStage : ℕ) (o : StageFieldOracle) : List UIEvent :=
  [UIEvent.fieldSet curStage "pv_per_stage" o.pvOk,
   UIEvent.fieldSet curStage "els_per_pv" o.elsOk,
   UIEvent.fieldSet curStage "element_type" o.elementTypeOk,
   UIEvent.fieldSet curStage (if curStage = 1 then "feed_pressure" else "boost_pressure")
     o.pressureOk]

/-- Oracle for one call of `WaveUI.set_reverse_osmosis_parameters`.
`bodyOk` is false when an exception escapes the per-stage loop itself
(for example a malformed previous-stage tuple); only then does the function
return False. -/
structure SetParamsOracle where
  stagesRadioOk : Bool
  stageFields : List StageFieldOracle
  bodyOk : Bool
deriving Repr, DecidableEq

/-- `WaveUI.set_reverse_osmosis_parameters`: click the stages radio button
(its failure is caught and only logged), write every stage's fields in
order, and return True; False is returned only when an exception escapes
the body.  The returned flag does not depend on the outcome of the
individual field writes. -/
def set_reverse_osmosis_parameters (o : SetParamsOracle) : Bool × List UIEvent :=
  if o.bodyOk then
    (true, UIEvent.stagesRadio o.stagesRadioOk ::
      (o.stageFields.enum.bind (fun p => set_stage_ro_parameters (p.1 + 1) p.2)))
  else
    (false, [UIEvent.stagesRadio o.stagesRadioOk])

/-- Oracle for one `_process_parameter_combination` call: the two tab
selections, the parameter-setting call, the report opening and the export. -/
structure ComboOracle where
  roTabOk : Bool
  setParams : SetParamsOracle
  summaryTabOk : Bool
  openReportOk : Bool
  exportOk : Bool
deriving Repr, DecidableEq

/-- `WaveUI._process_parameter_combination`: select the Reverse Osmosis tab,
set the parameters, select the Summary Report tab, open the detailed report,
append the ledger entry (obtaining the filename), then export to that
filename.  Returns the success flag, the ledger state after the call, and
the trace of driving events in order. -/
def process_parameter_combination (st : WaveState) (o : ComboOracle) :
    Bool × WaveState × List UIEvent :=
  if ¬ o.roTabOk then (false, st, [UIEvent.tabSelect "Reverse Osmosis" false])
  else
    let setRes := set_reverse_osmosis_parameters o.setParams
    let evs := UIEvent.tabSelect "Reverse Osmosis" true :: setRes.2
    if ¬ setRes.1 then (false, st, evs)
    else if ¬ o.summaryTabOk then
      (false, st, evs ++ [UIEvent.tabSelect "Summary Report" false])
    else if ¬ o.openReportOk then
      (false, st, evs ++ [UIEvent.tabSelect "Summary Report" true, UIEvent.reportOpen false])
    else
      let entry := add_metadata_entry st
      (o.exportOk, entry.2,
        evs ++ [UIEvent.tabSelect "Summary Report" true, UIEvent.reportOpen true,
          UIEvent.ledgerAppend entry.1, UIEvent.exportFile entry.1 o.exportOk])

/-- Oracle where only the stage-1 `pv_per_stage` field write fails. -/
def comboFieldFailure : ComboOracle :=
  ⟨true, ⟨true, [⟨false, true, true, true⟩], true⟩, true, true, true⟩

/-- Oracle where the Reverse Osmosis tab selection fails. -/
def comboTabFailure : ComboOracle := ⟨false, ⟨true, [], true⟩, true, true, true⟩

/-- Oracle where every driving step succeeds. -/
def comboAllOk : ComboOracle := ⟨true, ⟨true, [⟨true, true, true, true⟩], true⟩, true, true, true⟩

/-- One stored parameter dict of the metadata ledger, with exactly the keys
the matching logic in `get_pressure_from_excel` reads; `none` models an
absent key (`dict.get`). -/
structure StageParams where
  stage : Option ℕ
  pv : Option ℤ
  els : Option ℤ
  elementType : Option String
  feedPressure : Option ℚ
  targetPressure : Option ℚ
  boostPressure : Option ℚ
deriving Repr, DecidableEq

/-- A previous-stage parameter tuple `(pv, els, element_type, pressure)`
with the optional fifth `boost_pressure` component. -/
structure PrevTuple where
  pv : ℤ
  els : ℤ
  elementType : String
  pressure : ℚ
  boost : Option ℚ
deriving Repr, DecidableEq

/-- The expected dict built from a previous-stage tuple (`prev_stages_data`
in `get_pressure_from_excel`): stage 1 stores `feed_pressure`; later stages
store `target_pressure` and, when the tuple has five entries,
`boost_pressure`. -/
def expectedPrevDict (i : ℕ) (t : PrevTuple) : StageParams :=
  let stageNum := i + 1
  { stage := some stageNum
    pv := some t.pv
    els := some t.els
    elementType := some t.elementType
    feedPressure := if stageNum = 1 then some t.pressure else none
    targetPressure := if stageNum = 1 then none else some t.pressure
    boostPressure := if stageNum = 1 then none else t.boost }

/-- Comparison of one stored previous-stage dict against the expected one
(the inner loop of the metadata match): pv, els and element type must agree,
then the role-appropriate pressure field, and the boost pressure only when
the expected dict carries one. -/
def prevParamMatches (stageNum : ℕ) (expected stored : StageParams) : Bool :=
  stored.pv == expected.pv && stored.els == expected.els
    && stored.elementType == expected.elementType
    && (if stageNum = 1 then stored.feedPressure == expected.feedPressure
        else stored.targetPressure == expected.targetPressure
          && (match expected.boostPressure with
              | none => true
              | some bp => stored.boostPressure == some bp))

/-- Chain comparison: equal length and a stage-by-stage match, stage numbers
starting at 1. -/
def prevChainMatches : ℕ → List StageParams → List StageParams → Bool
  | _, [], [] => true
  | stageNum, stored :: restStored, expected :: restExpected =>
    prevParamMatches stageNum expected stored
      && prevChainMatches (stageNum + 1) restStored restExpected
  | _, _, _ => false

/-- Current-stage comparison of the metadata scan: stage, pv, els, element
type, and the role-appropriate pressure field. -/
def currentMatches (stage : ℕ) (pv els : ℤ) (etype : String) (pressure : ℚ)
    (cur : StageParams) : Bool :=
  cur.stage == some stage && cur.pv == some pv && cur.els == some els
    && cur.elementType == some etype
    && (if stage = 1 then cur.feedPressure == some pressure
        else cur.targetPressure == some pressure)

/-- A parsed row of the artifact's `Metadata` sheet. -/
structure MetaRow where
  filename : String
  current : StageParams
  prev : List StageParams
deriving Repr, DecidableEq

/-- Row predicate of the metadata scan in `get_pressure_from_excel`.  The
previous-stage criteria are compared only when a non-empty tuple list is
supplied (`if prev_stage_params:` is false both for `None` and for an empty
list). -/
def rowMatches (stage : ℕ) (pv els : ℤ) (etype : String) (pressure : ℚ)
    (prev : Option (List PrevTuple)) (row : MetaRow) : Bool :=
  currentMatches stage pv els etype pressure row.current
    && (match prev with
        | none => true
        | some [] => true
        | some ts =>
          prevChainMatches 1 row.prev (ts.enum.map (fun p => expectedPrevDict p.1 p.2)))

/-- A cell of the `element_flow` sheet: a numeric value or other text.
`float()` of non-numeric text raises (and the exception is caught); `str()`
of a numeric cell is its decimal rendering. -/
inductive Cell where
  | num (q : ℚ)
  | text (s : String)
deriving Repr, DecidableEq

/-- Python `str(cell)`. -/
def Cell.asString : Cell → String
  | .num q => toString q
  | .text s => s

/-- Python `float(cell)`, `none` when the conversion raises. -/
def Cell.asFloat : Cell → Option ℚ
  | .num q => some q
  | .text _ => none

/-- Substring occurrence on character lists. -/
def charsContain (sub : List Char) : List Char → Bool
  | [] => sub.isPrefixOf []
  | c :: rest => sub.isPrefixOf (c :: rest) || charsContain sub rest

/-- Python `sub in s` on strings. -/
def strContains (s sub : String) : Bool :=
  charsContain sub.data s.data

/-- The `element_flow` sheet: column names and rows of cells, each row
aligned with the column list. -/
structure FlowSheet where
  columns : List String
  rows : List (List Cell)
deriving Repr, DecidableEq

/-- A previous-stage report artifact: the parsed `Metadata` sheet and the
`element_flow` sheet.  `none` for a whole artifact models an I/O or parse
failure when opening or reading either sheet. -/
structure Artifact where
  metadata : List MetaRow
  flow : FlowSheet
deriving Repr, DecidableEq

/-- Prefix match of the regular expression `row_(\d+)_Feed_Press`
(Python `re.match`): the string must start with `row_`, then one or more
digits, then `_Feed_Press`; anything may follow.  Returns the parsed
number. -/
def matchRowFeedPress (s : String) : Option ℕ :=
  let cs := s.data
  if ("row_".data).isPrefixOf cs then
    let rest := cs.drop 4
    let digits := rest.takeWhile Char.isDigit
    let rest2 := rest.dropWhile Char.isDigit
    if digits ≠ [] && ("_Feed_Press".data).isPrefixOf rest2 then
      some (digits.foldl (fun n c => 10 * n + (c.toNat - '0'.toNat)) 0)
    else none
  else none

/-- Sort key used on the feed-pressure columns:
`int(re.match(..).group(1))`. -/
def feedPressKey (s : String) : ℕ :=
  (matchRowFeedPress s).getD 0

/-- The feed-pressure columns, sorted by their numeric index with a stable
sort.  A stable sort is uniquely determined by the key order, so this is
exactly Python's `list.sort(key=...)`. -/
def sortedFeedPressColumns (columns : List String) : List String :=
  List.insertionSort (fun a b => feedPressKey a ≤ feedPressKey b)
    (columns.filter (fun c => (matchRowFeedPress c).isSome))

/-- The column `feed_press_columns[-1]` selected by
`get_pressure_from_excel`. -/
def selectedFeedPressColumn (columns : List String) : Option String :=
  (sortedFeedPressColumns columns).getLast?

/-- Row test of the filename scan: some cell of the row contains the
filename as a substring. -/
def rowContainsFile (filename : String) (row : List Cell) : Bool :=
  row.any (fun cell => strContains cell.asString filename)

/-- The cell of the sheet at a row index under a named column. -/
def cellAt (sheet : FlowSheet) (rowIdx : ℕ) (col : String) : Option Cell :=
  match sheet.rows.get? rowIdx, List.indexOf? col sheet.columns with
  | some row, some colIdx => row.get? colIdx
  | _, _ => none

/-- `WaveUI.get_pressure_from_excel`: find the metadata row matching the
given keys (first match in ledger order), locate the first `element_flow`
row containing that filename, select the feed-pressure column with the
numerically largest index, read the cell and round it to one decimal place;
every failure path yields `(None, None)`. -/
def get_pressure_from_excel (artifact : Option Artifact) (stage : ℕ) (pv els : ℤ)
    (etype : String) (pressure : ℚ) (prev : Option (List PrevTuple)) :
    Option ℚ × Option ℚ :=
  match artifact with
  | none => (none, none)
  | some art =>
    match art.metadata.find? (rowMatches stage pv els etype pressure prev) with
    | none => (none, none)
    | some row =>
      match art.flow.rows.findIdx? (rowContainsFile row.filename) with
      | none => (none, none)
      | some rowIdx =>
        match selectedFeedPressColumn art.flow.columns with
        | none => (none, none)
        | some col =>
          match cellAt art.flow rowIdx col with
          | none => (none, none)
          | some cell =>
            match cell.asFloat with
            | none => (none, none)
            | some v => (row.current.boostPressure, some (pyRound1 v))

/-- Current-stage ranges and candidate targets of the multi-stage sweep. -/
structure CurrentStageConfig where
  pvMin : ℤ
  pvMax : ℤ
  elsMin : ℤ
  elsMax : ℤ
  targetValues : List ℚ
  elementType : String
deriving Repr, DecidableEq

/-- One attempted combination record of the multi-stage loop. -/
structure Attempt where
  chain : List PrevTuple
  target : ℚ
  boost : ℚ
  pv : ℤ
  els : ℤ
deriving Repr, DecidableEq

/-- The previous-stage lookup made for one ancestor chain in the multi-stage
loop: query on the immediate ancestor's parameters, passing the earlier
ancestors only when the immediate ancestor is itself beyond stage 1.  The
loop only builds non-empty chains; an empty chain maps to the not-found
result. -/
def chainLookup (artifact : Option Artifact) (currentStage : ℕ)
    (chain : List PrevTuple) : Option ℚ × Option ℚ :=
  let prevStage := currentStage - 1
  match chain.getLast? with
  | none => (none, none)
  | some lastT =>
    if 1 < prevStage then
      get_pressure_from_excel artifact prevStage lastT.pv lastT.els lastT.elementType
        lastT.pressure (some chain.dropLast)
    else
      get_pressure_from_excel artifact prevStage lastT.pv lastT.els lastT.elementType
        lastT.pressure none

/-- Attach a found boost pressure as the fifth component of the immediate
ancestor's tuple, when it does not already carry one. -/
def updateLastWithBoost (chain : List PrevTuple) (bp : ℚ) : List PrevTuple :=
  match chain.getLast? with
  | none => chain
  | some t => chain.dropLast ++ [if t.boost = none then { t with boost := some bp } else t]

/-- The attempts generated for one ancestor chain in the multi-stage loop of
`run_parameter_sweep`: resolve the ancestor feed pressure, skip the chain
entirely when it is unresolved, otherwise filter the candidate targets
against it and drive every `(target, pv, els)` combination with the computed
boost. -/
def perChainAttempts (artifact : Option Artifact) (cfg : CurrentStageConfig)
    (currentStage : ℕ) (chain : List PrevTuple) : List Attempt :=
  match chainLookup artifact currentStage chain with
  | (_, none) => []
  | (bp, some feed) =>
    let chain2 :=
      match bp with
      | some b => if 1 < currentStage - 1 then updateLastWithBoost chain b else chain
      | none => chain
    (get_valid_target_pressures cfg.targetValues feed).bind (fun target =>
      (rangeList cfg.pvMin cfg.pvMax).bind (fun pv =>
        (rangeList cfg.elsMin cfg.elsMax).map (fun els =>
          { chain := chain2, target := target, boost := pyRound1 (target - feed)
            pv := pv, els := els })))

/-- Sample current-stage dict of a stage-2 record in a metadata sheet. -/
def sampleCurrentParams : StageParams :=
  ⟨some 2, some 1, some 1, some "NF90-4040", none, some 40, some 5⟩

/-- Sample metadata row for the lookup witness. -/
def sampleMetaRow : MetaRow := ⟨"wave_report_0001.xls", sampleCurrentParams, []⟩

/-- Sample `element_flow` columns: the numerically largest feed-pressure
index is 10, although 2 is the lexicographically largest. -/
def sampleFlowColumns : List String :=
  ["filename", "row_1_Feed_Press", "row_2_Feed_Press", "row_10_Feed_Press"]

/-- Sample `element_flow` row: the identifying cell and the per-element
feed-pressure readings, the outlet-most holding 123.456. -/
def sampleFlowRow : List Cell :=
  [Cell.text "wave_report_0001.xls", Cell.num 100, Cell.num 110, Cell.num (123456 / 1000)]

/-- Sample artifact with one record. -/
def sampleArtifact : Artifact := ⟨[sampleMetaRow], ⟨sampleFlowColumns, [sampleFlowRow]⟩⟩

/-- Artifact with no records at all. -/
def emptyArtifact : Artifact := ⟨[], ⟨[], []⟩⟩

/-- Sample stage-1 ancestor tuple. -/
def samplePrevTuple : PrevTuple := ⟨1, 1, "NF90-4040", 10, none⟩

/-- Sample current-stage configuration for a stage-2 sweep. -/
def sampleStage2Cfg : CurrentStageConfig := ⟨1, 1, 1, 1, [], "NF90-4040"⟩

theorem roundHalfEven_intCast (z : ℤ) : roundHalfEven (z : ℚ) = z := by
  simp [roundHalfEven]

theorem pyInt_eq_floor_of_nonneg (x : ℚ) (h : 0 ≤ x) : pyInt x = ⌊x⌋ := by
  simp [pyInt, h]

/-- Values produced by `pyRound1` are fixed points of `pyRound1`
(they carry at most one decimal digit). -/
theorem pyRound1_idem (x : ℚ) : pyRound1 (pyRound1 x) = pyRound1 x := by
  unfold pyRound1
  rw [mul_div_cancel₀ _ (by norm_num : (10 : ℚ) ≠ 0), roundHalfEven_intCast]

theorem get_valid_target_pressures_foldl (F : ℚ) (T : List ℚ) (acc : List ℚ) :
    T.foldl
      (fun valid target => if 0 < target - F then valid ++ [target] else valid) acc
      = acc ++ T.filter (fun t => 0 < t - F) := by
  induction T generalizing acc with
  | nil => simp
  | cons t ts ih =>
    rw [List.foldl_cons, List.filter_cons]
    by_cases h : 0 < t - F
    · rw [if_pos h, ih]
      simp [h]
    · rw [if_neg h, ih]
      simp [h]

/-- The appended-accumulator loop computes exactly a `List.filter`. -/
theorem get_valid_target_pressures_eq_filter (T : List ℚ) (F : ℚ) :
    get_valid_target_pressures T F = T.filter (fun t => 0 < t - F) := by
  have h := get_valid_target_pressures_foldl F T []
  rw [List.nil_append] at h
  exact h

theorem length_rangeList (a b : ℤ) : (rangeList a b).length = (b + 1 - a).toNat := by
  rw [rangeList, List.length_map, List.length_range]

theorem length_pressureValues (p0 p1 s : ℚ) :
    (pressureValues p0 p1 s).length = (pyInt ((p1 - p0) / s) + 1).toNat := by
  rw [pressureValues, List.length_map, List.length_range]

theorem length_bind_const {α β : Type} (l : List α) (f : α → List β) (k : ℕ)
    (h : ∀ a ∈ l, (f a).length = k) : (l.bind f).length = l.length * k := by
  induction l with
  | nil => simp
  | cons x xs ih =>
    have hx := h x (List.mem_cons_self x xs)
    have hxs := ih (fun a ha => h a (List.mem_cons_of_mem x ha))
    simp [List.cons_bind, hx, hxs, Nat.succ_mul, Nat.add_comm]

theorem length_stage1Combos (a b c d : ℤ) (p0 p1 s : ℚ) :
    (stage1Combos a b c d p0 p1 s).length
      = (b + 1 - a).toNat * ((d + 1 - c).toNat * (pyInt ((p1 - p0) / s) + 1).toNat) := by
  rw [stage1Combos,
    length_bind_const _ _ ((d + 1 - c).toNat * (pyInt ((p1 - p0) / s) + 1).toNat),
    length_rangeList]
  intro pv _
  rw [length_bind_const _ _ ((pyInt ((p1 - p0) / s) + 1).toNat), length_rangeList]
  intro els _
  rw [List.length_map, length_pressureValues]

theorem rangeList_eq_nil (a b : ℤ) (h : b < a) : rangeList a b = [] := by
  have h0 : (b + 1 - a).toNat = 0 := by omega
  simp [rangeList, h0]

theorem pressureValues_eq_nil (p0 p1 s : ℚ) (hs : 0 < s) (h : p1 + s ≤ p0) :
    pressureValues p0 p1 s = [] := by
  have hq : (p1 - p0) / s ≤ -1 := by
    rw [div_le_iff₀ hs]
    linarith
  have hneg : ¬ (0 : ℚ) ≤ (p1 - p0) / s := by linarith
  have hle : pyInt ((p1 - p0) / s) ≤ -1 := by
    rw [pyInt, if_neg hneg]
    have := Int.ceil_le.mpr (show (p1 - p0) / s ≤ ((-1 : ℤ) : ℚ) by exact_mod_cast hq)
    omega
  have h0 : (pyInt ((p1 - p0) / s) + 1).toNat = 0 := by omega
  simp [pressureValues, h0]

/-- C4, counterexample.  The claim says an inverted pressure range yields zero
combinations, but a range inverted by less than one step yields one: with
`feed_pressure_range = [10, 9.5]` and step 1, `int(-0.5) = 0` (truncation
toward zero), so one pressure value is generated and one combination is
enumerated. -/
theorem stage1_inverted_pressure_range_not_empty :
    ((19 : ℚ) / 2 < 10) ∧ (stage1Combos 1 1 1 1 10 (19 / 2) 1).length = 1 := by
  constructor
  · norm_num
  · rw [length_stage1Combos]
    rw [pyInt, if_neg (by norm_num)]
    have hc : (⌈((19 : ℚ) / 2 - 10) / 1⌉ : ℤ) = 0 := by norm_num
    rw [hc]
    decide

/-- C4 (amended).  For ranges `pv = [a, b]`, `els = [c, d]`, pressures
`[p0, p1]` with step `s > 0`, the enumerated space has exactly
`(b - a + 1) * (d - c + 1) * (floor ((p1 - p0) / s) + 1)` combinations when no
range is inverted, each generated pressure value is already rounded to one
decimal place, and an inverted `pv` or `els` range yields zero combinations
without raising.  An inverted pressure range yields zero combinations only
when `p1 ≤ p0 - s`; by truncation toward zero a pressure range inverted by
less than one step still yields one combination. -/
theorem stage1_enumerator_complete (a b c d : ℤ) (p0 p1 s : ℚ) (hs : 0 < s) :
    (a ≤ b → c ≤ d → p0 ≤ p1 →
      (stage1Combos a b c d p0 p1 s).length
        = (b - a + 1).toNat * ((d - c + 1).toNat * (⌊(p1 - p0) / s⌋ + 1).toNat))
    ∧ (b < a ∨ d < c → stage1Combos a b c d p0 p1 s = [])
    ∧ (p1 + s ≤ p0 → stage1Combos a b c d p0 p1 s = [])
    ∧ (∀ q ∈ pressureValues p0 p1 s, pyRound1 q = q) := by
  refine ⟨?_, ?_, ?_, ?_⟩
  · intro hab hcd hp
    rw [length_stage1Combos]
    have h0 : (0 : ℚ) ≤ (p1 - p0) / s := div_nonneg (by linarith) (le_of_lt hs)
    rw [pyInt_eq_floor_of_nonneg _ h0]
    have e1 : (b + 1 - a).toNat = (b - a + 1).toNat := by omega
    have e2 : (d + 1 - c).toNat = (d - c + 1).toNat := by omega
    rw [e1, e2]
  · intro h
    cases h with
    | inl h => simp [stage1Combos, rangeList_eq_nil a b h]
    | inr h => simp [stage1Combos, rangeList_eq_nil c d h]
  · intro h
    simp [stage1Combos, pressureValues_eq_nil p0 p1 s hs h]
  · intro q hq
    rw [pressureValues] at hq
    obtain ⟨i, _, rfl⟩ := List.mem_map.mp hq
    exact pyRound1_idem _

theorem stage1_enumerator_complete_witness :
    (0 : ℚ) < 1 ∧ (10 : ℚ) ≤ 11 ∧ (stage1Combos 1 2 1 1 10 11 1).length = 4 := by
  refine ⟨by norm_num, by norm_num, ?_⟩
  have h := (stage1_enumerator_complete 1 2 1 1 10 11 1 (by norm_num)).1
      (by decide) (by decide) (by norm_num)
  have hf : (⌊((11 : ℚ) - 10) / 1⌋ : ℤ) = 1 := by norm_num
  rw [hf] at h
  rw [h]
  decide

/-- C5 (amended).  A zero pressure step raises `ZeroDivisionError` inside
`run_parameter_sweep` before `launch_wave` is invoked, and the process exits
with a non-zero status.  A negative step, however, is not rejected anywhere:
the sweep proceeds and launches the external application. -/
theorem step_nonpos_behaviour (cfg : Stage1Config) (launchOk : Bool)
    (relaunchOk : ℕ → Bool) (comboOk : ℤ × ℤ × ℚ → Bool) :
    (cfg.step = 0 →
      run_parameter_sweep_stage1 cfg launchOk relaunchOk comboOk
          = { zeroDivisionRaised := true, launchAttempted := false
              successfulRuns := 0, totalCombinations := 0 }
        ∧ automationExitCode (run_parameter_sweep_stage1 cfg launchOk relaunchOk comboOk) = 1)
    ∧ (cfg.step < 0 →
        (run_parameter_sweep_stage1 cfg launchOk relaunchOk comboOk).zeroDivisionRaised = false
        ∧ (run_parameter_sweep_stage1 cfg launchOk relaunchOk comboOk).launchAttempted = true) := by
  constructor
  · intro h
    have e : run_parameter_sweep_stage1 cfg launchOk relaunchOk comboOk
        = { zeroDivisionRaised := true, launchAttempted := false
            successfulRuns := 0, totalCombinations := 0 } := by
      rw [run_parameter_sweep_stage1, if_pos h]
    refine ⟨e, ?_⟩
    rw [e]
    rfl
  · intro h
    have hne : cfg.step ≠ 0 := ne_of_lt h
    cases launchOk <;> simp [run_parameter_sweep_stage1, hne]

theorem step_nonpos_behaviour_witness :
    cfgStepZero.step = 0
    ∧ automationExitCode (run_parameter_sweep_stage1 cfgStepZero
        true (fun _ => true) (fun _ => true)) = 1 := by
  have hstep : cfgStepZero.step = 0 := rfl
  exact ⟨hstep,
    ((step_nonpos_behaviour cfgStepZero true (fun _ => true) (fun _ => true)).1 hstep).2⟩

/-- C5, counterexample.  A negative pressure step is accepted: with
`feed_pressure_step = -1`, no configuration error is raised and the sweep
still launches the external application, contradicting the claim that every
step value that is zero or negative fails fast before any external
interaction. -/
theorem step_negative_launches :
    cfgStepNeg.step ≤ 0
    ∧ (run_parameter_sweep_stage1 cfgStepNeg true (fun _ => true) (fun _ => true)).launchAttempted
        = true
    ∧ (run_parameter_sweep_stage1 cfgStepNeg true (fun _ => true) (fun _ => true)).zeroDivisionRaised
        = false := by
  have hstep : cfgStepNeg.step = -1 := rfl
  have hne : cfgStepNeg.step ≠ 0 := by
    rw [hstep]
    norm_num
  refine ⟨by rw [hstep]; norm_num, ?_, ?_⟩ <;>
    simp [run_parameter_sweep_stage1, hne]

/-- C3, counterexample.  The code filters on `target - feed_pressure > 0`
without rounding, so with feed pressure `0` and candidate `0.01` the code
keeps the candidate while the claimed set `{t : round(t - F, 1) > 0}`
excludes it (`round(0.01, 1) = 0.0`). -/
theorem feasibility_filter_no_rounding :
    get_valid_target_pressures [1 / 100] 0 = [1 / 100]
    ∧ specValidTargets [1 / 100] 0 = [] := by
  constructor
  · rw [get_valid_target_pressures_eq_filter]
    norm_num
  · rw [specValidTargets]
    have hr : pyRound1 ((1 : ℚ) / 100 - 0) = 0 := by
      rw [pyRound1, roundHalfEven]
      norm_num
    rw [List.filter_cons, hr]
    norm_num

/-- C3 (amended).  For every feed pressure `F` and candidate list `T`, the
filtered result is exactly the sublist of elements with `t - F > 0` — the
comparison is made on the raw difference, with no rounding — and in
particular the boundary `t = F` is excluded because the boost must be
strictly positive. -/
theorem feasibility_filter_characterisation (F : ℚ) (T : List ℚ) :
    get_valid_target_pressures T F = T.filter (fun t => 0 < t - F)
    ∧ (∀ t, t ∈ get_valid_target_pressures T F ↔ t ∈ T ∧ 0 < t - F)
    ∧ F ∉ get_valid_target_pressures T F := by
  refine ⟨get_valid_target_pressures_eq_filter T F, ?_, ?_⟩
  · intro t
    rw [get_valid_target_pressures_eq_filter, List.mem_filter]
    simp
  · rw [get_valid_target_pressures_eq_filter]
    intro hF
    have := (List.mem_filter.mp hF).2
    simp at this

/-- C10.  The feasibility filter returns a sublist of its input (every
element occurs in the input, in the same relative order, with no duplication
beyond its occurrences), and applying the filter twice with the same feed
pressure gives the same list as applying it once. -/
theorem feasibility_filter_sublist_idem (F : ℚ) (T : List ℚ) :
    (get_valid_target_pressures T F).Sublist T
    ∧ get_valid_target_pressures (get_valid_target_pressures T F) F
        = get_valid_target_pressures T F := by
  constructor
  · rw [get_valid_target_pressures_eq_filter]
    exact List.filter_sublist T
  · rw [get_valid_target_pressures_eq_filter, get_valid_target_pressures_eq_filter,
      List.filter_filter]
    simp

/-- C1, failing evaluation.  The resume logic in `WaveUI.__init__` looks for
a `report_id` column, but the ledger the program itself writes has columns
`filename, timestamp, current_stage_params, previous_stages_params` and no
`report_id`; a later invocation that resumes from the persisted file
therefore restarts the counter at 1 and its first append generates
`wave_report_0001.xls` again — a duplicate of the first invocation's
filename, contradicting the claimed cross-restart uniqueness. -/
theorem restart_reuses_first_filename :
    (runInvocation none 1).1 = ["wave_report_0001.xls"]
    ∧ "report_id" ∉ (runInvocation none 1).2.columns
    ∧ (runInvocation (some (runInvocation none 1).2) 1).1 = ["wave_report_0001.xls"] := by
  decide

/-- C2 (amended).  A combination is counted as a successful run exactly when
the Reverse Osmosis tab selection, the parameter-setting call, the Summary
Report tab selection, the detailed-report opening and the export all return
success.  The parameter-setting call, however, reports success regardless of
the outcomes of the individual field writes (they are caught and logged
inside it), so a failed pv/els/element-type/pressure write does not prevent
the combination from being counted successful. -/
theorem process_success_independent_of_field_failures (st : WaveState) (o : ComboOracle) :
    (process_parameter_combination st o).1
      = (o.roTabOk && o.setParams.bodyOk && o.summaryTabOk && o.openReportOk && o.exportOk) := by
  rcases o with ⟨ro, ⟨radio, fields, body⟩, sum, op, ex⟩
  cases ro <;> cases body <;> cases sum <;> cases op <;> cases ex <;>
    simp [process_parameter_combination, set_reverse_osmosis_parameters]

/-- C2, counterexample.  A combination whose stage-1 `pv_per_stage` field
write fails is still counted as a successful run, because the failure is
caught inside `_set_stage_reverse_osmosis_parameters` and
`set_reverse_osmosis_parameters` still returns True. -/
theorem success_counted_despite_field_failure :
    (process_parameter_combination (initWaveState none) comboFieldFailure).1 = true
    ∧ UIEvent.fieldSet 1 "pv_per_stage" false
        ∈ (process_parameter_combination (initWaveState none) comboFieldFailure).2.2 := by
  decide

/-- C9.  When a combination fails before the detailed report is opened —
the Reverse Osmosis tab selection fails, the parameter-setting call fails,
the Summary Report tab selection fails, or opening the detailed report
fails — no ledger entry is appended and the ledger state (report counter
and rows) is exactly as it was before the combination was attempted. -/
theorem early_failure_no_ledger_entry (st : WaveState) (o : ComboOracle)
    (h : o.roTabOk = false ∨ o.setParams.bodyOk = false ∨ o.summaryTabOk = false
        ∨ o.openReportOk = false) :
    (process_parameter_combination st o).2.1 = st
    ∧ ∀ fn, UIEvent.ledgerAppend fn ∉ (process_parameter_combination st o).2.2 := by
  rcases o with ⟨ro, ⟨radio, fields, body⟩, sum, op, ex⟩
  cases ro <;> cases body <;> cases sum <;> cases op <;>
    simp_all [process_parameter_combination, set_reverse_osmosis_parameters,
      set_stage_ro_parameters]

theorem early_failure_no_ledger_entry_witness :
    (process_parameter_combination (initWaveState none) comboTabFailure).2.1 = initWaveState none
    ∧ UIEvent.ledgerAppend "wave_report_0001.xls"
        ∉ (process_parameter_combination (initWaveState none) comboTabFailure).2.2 := by
  have h := early_failure_no_ledger_entry (initWaveState none) comboTabFailure (Or.inl rfl)
  exact ⟨h.1, h.2 _⟩

/-- C8.  Whenever the export step is performed for a combination, the trace
contains the ledger append of that combination's filename strictly before
the export event: the orchestrator never exports without having first
appended the ledger entry, so the entry survives even if the export itself
fails. -/
theorem ledger_entry_before_export (st : WaveState) (o : ComboOracle) (fn : String) (b : Bool)
    (h : UIEvent.exportFile fn b ∈ (process_parameter_combination st o).2.2) :
    ∃ pre post, (process_parameter_combination st o).2.2
        = pre ++ UIEvent.ledgerAppend fn :: post
      ∧ UIEvent.exportFile fn b ∈ post := by
  rcases o with ⟨ro, sp, sum, op, ex⟩
  cases ro with
  | false =>
    exfalso
    simp [process_parameter_combination] at h
  | true =>
    cases hb : sp.bodyOk with
    | false =>
      exfalso
      simp [process_parameter_combination, set_reverse_osmosis_parameters, hb] at h
    | true =>
      cases sum with
      | false =>
        exfalso
        simp [process_parameter_combination, set_reverse_osmosis_parameters, hb,
          set_stage_ro_parameters] at h
      | true =>
        cases op with
        | false =>
          exfalso
          simp [process_parameter_combination, set_reverse_osmosis_parameters, hb,
            set_stage_ro_parameters] at h
        | true =>
          have hfb : fn = generate_report_filename st.reportCounter ∧ b = ex := by
            simpa [process_parameter_combination, set_reverse_osmosis_parameters, hb,
              set_stage_ro_parameters, add_metadata_entry] using h
          obtain ⟨rfl, rfl⟩ := hfb
          refine ⟨UIEvent.tabSelect "Reverse Osmosis" true ::
              UIEvent.stagesRadio sp.stagesRadioOk ::
              (sp.stageFields.enum.bind (fun p => set_stage_ro_parameters (p.1 + 1) p.2))
              ++ [UIEvent.tabSelect "Summary Report" true, UIEvent.reportOpen true],
            [UIEvent.exportFile (generate_report_filename st.reportCounter) b], ?_, ?_⟩
          · simp [process_parameter_combination, set_reverse_osmosis_parameters, hb,
              add_metadata_entry]
          · simp

theorem ledger_entry_before_export_witness :
    UIEvent.exportFile "wave_report_0001.xls" true
        ∈ (process_parameter_combination (initWaveState none) comboAllOk).2.2
    ∧ ∃ pre post, (process_parameter_combination (initWaveState none) comboAllOk).2.2
        = pre ++ UIEvent.ledgerAppend "wave_report_0001.xls" :: post
      ∧ UIEvent.exportFile "wave_report_0001.xls" true ∈ post :=
  ⟨by decide,
    ledger_entry_before_export (initWaveState none) comboAllOk "wave_report_0001.xls" true
      (by decide)⟩

/-- C6.  The result-extraction lookup is total and maps every failure to
`(None, None)`: a missing or unreadable artifact, no matching metadata
record, no row containing the filename, and no feed-pressure column all
yield `(None, None)`; and the multi-stage orchestrator generates no attempt
at all for an ancestor chain whose feed pressure is unresolved — the chain
is skipped, the sweep is not aborted. -/
theorem extraction_failures_yield_none_and_skip :
    ∀ (stage : ℕ) (pv els : ℤ) (etype : String) (pressure : ℚ)
      (prev : Option (List PrevTuple)),
    get_pressure_from_excel none stage pv els etype pressure prev = (none, none)
    ∧ (∀ art : Artifact,
        (art.metadata.find? (rowMatches stage pv els etype pressure prev) = none →
          get_pressure_from_excel (some art) stage pv els etype pressure prev = (none, none))
        ∧ (∀ row, art.metadata.find? (rowMatches stage pv els etype pressure prev) = some row →
            art.flow.rows.findIdx? (rowContainsFile row.filename) = none →
            get_pressure_from_excel (some art) stage pv els etype pressure prev = (none, none))
        ∧ (selectedFeedPressColumn art.flow.columns = none →
            get_pressure_from_excel (some art) stage pv els etype pressure prev = (none, none)))
    ∧ (∀ (artifact : Option Artifact) (cfg : CurrentStageConfig) (currentStage : ℕ)
          (chain : List PrevTuple),
        (chainLookup artifact currentStage chain).2 = none →
        perChainAttempts artifact cfg currentStage chain = []) := by
  intro stage pv els etype pressure prev
  refine ⟨rfl, ?_, ?_⟩
  · intro art
    refine ⟨?_, ?_, ?_⟩
    · intro h
      simp only [get_pressure_from_excel, h]
    · intro row hrow h
      simp only [get_pressure_from_excel, hrow, h]
    · intro h
      simp only [get_pressure_from_excel, h]
      cases hfind : art.metadata.find? (rowMatches stage pv els etype pressure prev) with
      | none => rfl
      | some row =>
        cases hidx : art.flow.rows.findIdx? (rowContainsFile row.filename) with
        | none => simp [hidx]
        | some rowIdx => simp [hidx]
  · intro artifact cfg currentStage chain h
    rcases hlk : chainLookup artifact currentStage chain with ⟨b, f⟩
    rw [hlk] at h
    cases f with
    | none => simp [perChainAttempts, hlk]
    | some v => exact absurd h (by simp)

theorem extraction_failures_witness :
    (emptyArtifact.metadata.find? (rowMatches 2 1 1 "NF90-4040" 40 none) = none)
    ∧ get_pressure_from_excel (some emptyArtifact) 2 1 1 "NF90-4040" 40 none = (none, none)
    ∧ (chainLookup none 2 [samplePrevTuple]).2 = none
    ∧ perChainAttempts none sampleStage2Cfg 2 [samplePrevTuple] = [] := by
  have h := extraction_failures_yield_none_and_skip 2 1 1 "NF90-4040" 40 none
  exact ⟨by decide, (h.2.1 emptyArtifact).1 (by decide), by decide,
    h.2.2 none sampleStage2Cfg 2 [samplePrevTuple] (by decide)⟩

theorem sorted_key_le_getLast {α : Type} (key : α → ℕ) :
    ∀ (l : List α) (c : α), l.Sorted (fun a b => key a ≤ key b) → l.getLast? = some c →
      ∀ x ∈ l, key x ≤ key c := by
  intro l
  induction l with
  | nil =>
    intro c _ hlast
    simp at hlast
  | cons y ys ih =>
    intro c hsort hlast x hx
    cases ys with
    | nil =>
      simp at hlast hx
      subst hlast
      subst hx
      exact le_refl _
    | cons z zs =>
      rw [List.getLast?_cons_cons] at hlast
      have hparts := List.sorted_cons.mp hsort
      rcases List.mem_cons.mp hx with rfl | hx2
      · have hc : c ∈ z :: zs := List.mem_of_mem_getLast? hlast
        exact hparts.1 c hc
      · exact ih c hparts.2 hlast x hx2

/-- C7.  When the extraction succeeds, the feed-pressure column it reads is
one whose `row_<n>_Feed_Press` index is the numerically largest among all
matching columns (the indices are compared as integers, not
lexicographically), and the returned feed pressure is the cell value rounded
to one decimal place, alongside the boost pressure stored in the matched
ledger entry. -/
theorem last_feed_press_column_and_rounding :
    (∀ (columns : List String) (c : String), selectedFeedPressColumn columns = some c →
      c ∈ columns ∧ ∃ k, matchRowFeedPress c = some k
        ∧ ∀ c2 ∈ columns, ∀ k2, matchRowFeedPress c2 = some k2 → k2 ≤ k)
    ∧ (∀ (art : Artifact) (stage : ℕ) (pv els : ℤ) (etype : String) (pressure : ℚ)
        (prev : Option (List PrevTuple)) (row : MetaRow) (rowIdx : ℕ) (col : String) (v : ℚ),
        art.metadata.find? (rowMatches stage pv els etype pressure prev) = some row →
        art.flow.rows.findIdx? (rowContainsFile row.filename) = some rowIdx →
        selectedFeedPressColumn art.flow.columns = some col →
        cellAt art.flow rowIdx col = some (Cell.num v) →
        get_pressure_from_excel (some art) stage pv els etype pressure prev
          = (row.current.boostPressure, some (pyRound1 v))) := by
  constructor
  · intro columns c h
    letI : IsTotal String (fun a b => feedPressKey a ≤ feedPressKey b) :=
      ⟨fun a b => le_total _ _⟩
    letI : IsTrans String (fun a b => feedPressKey a ≤ feedPressKey b) :=
      ⟨fun a b d h1 h2 => le_trans h1 h2⟩
    have hperm := List.perm_insertionSort (fun a b => feedPressKey a ≤ feedPressKey b)
      (columns.filter (fun cc => (matchRowFeedPress cc).isSome))
    have hsort := List.sorted_insertionSort (fun a b => feedPressKey a ≤ feedPressKey b)
      (columns.filter (fun cc => (matchRowFeedPress cc).isSome))
    have hmemSorted : c ∈ sortedFeedPressColumns columns := List.mem_of_mem_getLast? h
    have hmemFilter : c ∈ columns.filter (fun cc => (matchRowFeedPress cc).isSome) :=
      hperm.mem_iff.mp hmemSorted
    have hmemCols := List.mem_filter.mp hmemFilter
    obtain ⟨k, hk⟩ := Option.isSome_iff_exists.mp hmemCols.2
    refine ⟨hmemCols.1, k, hk, ?_⟩
    intro c2 hc2 k2 hk2
    have hc2Filter : c2 ∈ columns.filter (fun cc => (matchRowFeedPress cc).isSome) :=
      List.mem_filter.mpr ⟨hc2, by rw [hk2]; rfl⟩
    have hc2Sorted : c2 ∈ sortedFeedPressColumns columns := hperm.mem_iff.mpr hc2Filter
    have hle := sorted_key_le_getLast feedPressKey (sortedFeedPressColumns columns) c hsort h
      c2 hc2Sorted
    rw [feedPressKey, feedPressKey, hk, hk2] at hle
    exact hle
  · intro art stage pv els etype pressure prev row rowIdx col v h1 h2 h3 h4
    simp only [get_pressure_from_excel, h1, h2, h3, h4, Cell.asFloat]

theorem last_feed_press_column_and_rounding_witness :
    ("row_10_Feed_Press" ∈ sampleFlowColumns
      ∧ ∃ k, matchRowFeedPress "row_10_Feed_Press" = some k
          ∧ ∀ c2 ∈ sampleFlowColumns, ∀ k2, matchRowFeedPress c2 = some k2 → k2 ≤ k)
    ∧ get_pressure_from_excel (some sampleArtifact) 2 1 1 "NF90-4040" 40 none
        = (some 5, some (247 / 2)) := by
  constructor
  · exact last_feed_press_column_and_rounding.1 sampleFlowColumns "row_10_Feed_Press" (by decide)
  · have h := last_feed_press_column_and_rounding.2 sampleArtifact 2 1 1 "NF90-4040" 40 none
      sampleMetaRow 0 "row_10_Feed_Press" (123456 / 1000) (by decide) rfl (by decide) rfl
    rw [h]
    have hb : sampleMetaRow.current.boostPressure = some 5 := rfl
    have hr : pyRound1 ((123456 : ℚ) / 1000) = 247 / 2 := by
      rw [pyRound1, roundHalfEven]
      norm_num
    rw [hb, hr]
